import Mathlib

/-!
Shallow embedding of `tool/transportation_containmentline_processing.py`, an
ArcGIS (arcpy) pipeline that deduplicates USGS/USFS transportation line
features, attributes a barrier width to each surviving segment, and merges
everything into one output feature class.

Modelling conventions:
- A line geometry is a `Multiset Nat` of abstract atoms (cells of space the
  line covers); a duplicated atom models a self-overlapping (topologically
  invalid) part, the empty multiset models a null geometry.
- A feature is a record of geometry plus the attribute fields the script
  touches (`tnmfrc`, `trailtype`, `LANES`/`LaneWidth`, `ohvover50inches`,
  `Width`, `Source`, `LineLength`); a feature class is a `List Feature`.
- The arcpy scratch workspace is a map from dataset name to an optional
  feature class (`none` = the dataset does not exist).
- arcpy geometry primitives (PairwiseIntersect, PairwiseErase,
  PairwiseDissolve, Merge, RepairGeometry) are given their documented
  set-level semantics on this abstract geometry.
- The Python `code_block` reclassification functions and the incident-name
  handling are translated line by line from the script.
-/

/-- A line geometry: a multiset of abstract atoms of space covered by the
line.  `0` (the empty multiset) is a null geometry; a repeated atom is a
self-overlapping, topologically invalid part. -/
abbrev Geom := Multiset Nat

/-- One transportation line feature with the attribute fields the script
reads or writes.  Fields not relevant to a given stage keep their
defaults. -/
structure Feature where
  geom : Geom := 0
  tnmfrc : Option Int := none
  trailtype : String := ""
  lanes : Option String := none
  laneWidth : Option String := none
  ohvover50inches : Option String := none
  width : Option Rat := none
  source : String := ""
  lineLength : Rat := 0
deriving DecidableEq

/-- A feature class: the ordered rows of one dataset. -/
abbrev FeatureClass := List Feature

/-- The arcpy scratch workspace: dataset name to contents, `none` when the
dataset does not exist (`arcpy.Exists` is false). -/
abbrev Workspace := String → Option FeatureClass

/-- Create or overwrite a dataset (the script runs with
`arcpy.env.overwriteOutput = True`). -/
def wsSet (ws : Workspace) (n : String) (fc : FeatureClass) : Workspace :=
  fun m => if m = n then some fc else ws m

/-- `arcpy.Delete_management` of one dataset name. -/
def wsDel (ws : Workspace) (n : String) : Workspace :=
  fun m => if m = n then none else ws m

/-! ### Width reclassification code blocks (script lines 200-263)

Each `CalculateField` call carries a Python `code_block`; these are the
line-by-line translations. -/

/-- `Reclass(tnmfrc)` of the USGS-road width `CalculateField`
(script lines 201-219): functional-class code to width in meters.
Note the branch `elif tnmfrc is None: return None`. -/
def reclassTnmfrc : Option Int → Option Rat
  | some 1 => some 25
  | some 2 => some 20
  | some 3 => some 15
  | some 4 => some 5
  | some 5 => some 25
  | some 6 => some 3
  | some 9 => some 2
  | none => none
  | some _ => some 1000

/-- Python `str` of a field value, as used by `str(lanes)` in the `rcls`
code block: `str(None) = "None"`. -/
def pyStr : Option String → String
  | none => "None"
  | some s => s

/-- `rcls(lanes)` of the USFS-road `LaneWidth` `CalculateField`
(script lines 224-229), translated faithfully.  The Python loop is

    for char in str(lanes):
        if char.isdigit():
            return char
        else:
            return None

so the `else: return None` sits inside the loop body: only the first
character of `str(lanes)` is ever examined, and an empty string falls
through to an implicit `return None`. -/
def rcls (lanes : Option String) : Option String :=
  match (pyStr lanes).data with
  | [] => none
  | c :: _ => if c.isDigit then some (String.mk [c]) else none

/-- Modelled from the spec: the intended lane classification of §4.7 /
claim C6, "first numeric digit extracted from a lane-count string, or
null → unclassified"; the repository has no other statement of the scan,
the code block being the disputed artifact. -/
def firstDigitOfLanes (lanes : Option String) : Option String :=
  match lanes with
  | none => none
  | some s => (s.data.find? Char.isDigit).map (fun c => String.mk [c])

/-- `Reclass(LaneWidth)` of the USFS-road width `CalculateField`
(script lines 235-249): lane-count digit (a one-character string) to width
in meters, `None → 5`, anything else `→ 1000`. -/
def reclassLaneWidth : Option String → Rat
  | some "1" => 5
  | some "2" => 8
  | some "3" => 10
  | some "4" => 15
  | some "5" => 25
  | none => 5
  | some _ => 1000

/-- `Reclass(ohvover50inches)` of the trail width `CalculateField`
(script lines 257-263): vehicle-capable trails get 1.5 m, everything else
(including null) 0.5 m. -/
def reclassOhv : Option String → Rat
  | some "Y" => 1.5
  | none => 0.5
  | some _ => 0.5

/-- Rail width, the constant `"8"` of the rail `CalculateField`
(script line 251). -/
def railWidth : Rat := 8

/-! ### Incident name and output naming (script lines 90-96 and 273) -/

/-- Python `IncName.replace(" ","")`: remove every space character. -/
def stripSpaces (s : String) : String :=
  String.mk (s.data.filter (fun c => c ≠ ' '))

/-- Script lines 91-95: the `SearchCursor` over the perimeter rows reads
`attr_IncidentName` of the first row and `break`s; the name then has its
spaces removed.  An empty cursor leaves `IncName` unbound (a runtime error
caught by the phase boundary), modelled as `none`. -/
def incNameOfRows : List String → Option String
  | [] => none
  | r :: _ => some (stripSpaces r)

/-- Script line 273: the published output dataset is
`"transprtn_cntmnt_" + IncName + "_" + datetime`. -/
def finalOutputName (rows : List String) (ts : String) : Option String :=
  (incNameOfRows rows).map (fun n => "transprtn_cntmnt_" ++ n ++ "_" ++ ts)

/-! ### Geometric primitives (arcpy set-level semantics on abstract atoms) -/

/-- The portion of geometry `a` that coincides with geometry `b`:
the atoms of `a` also covered by `b`. -/
def geomInter (a b : Geom) : Geom := a.filter (fun x => x ∈ b)

/-- Whether atom `x` is covered by some feature of class `I`. -/
def coveredBy (I : FeatureClass) (x : Nat) : Bool :=
  I.any (fun f => decide (x ∈ f.geom))

/-- `arcpy.analysis.PairwiseIntersect("A;B", out, "ONLY_FID")`: one output
feature per pair of input features, carrying the coincident portion of their
geometries and (with `ONLY_FID`) none of their attributes. -/
def pairwiseIntersect (A B : FeatureClass) : FeatureClass :=
  A.flatMap (fun f => B.map (fun g => { geom := geomInter f.geom g.geom }))

/-- `arcpy.analysis.PairwiseErase(T, I, out)`: each feature of `T` keeps
only the atoms covered by no feature of `I`. -/
def pairwiseErase (T I : FeatureClass) : FeatureClass :=
  T.map (fun t => { t with geom := t.geom.filter (fun x => coveredBy I x = false) })

/-- The exact-duplicate removal sequence of script lines 125-135:
intersect the high-priority class `H` with the low-priority class `L`
(`ONLY_FID`), then erase the intersection regions from `L`. -/
def priorityDedup (H L : FeatureClass) : FeatureClass :=
  pairwiseErase L (pairwiseIntersect H L)

/-- The same sequence at workspace level: the intersect output is written
to the new dataset `iname` and the erase output to the new dataset `oname`;
the inputs are read, never written (script lines 125-127 and 133-135). -/
def priorityDedupStep (ws : Workspace) (hname lname iname oname : String) : Workspace :=
  match ws hname, ws lname with
  | some H, some L => wsSet (wsSet ws iname (pairwiseIntersect H L)) oname (priorityDedup H L)
  | _, _ => ws

/-! ### Attribute filtering (script lines 110-114)

`MakeFeatureLayer(src, layer, where)` creates a layer that is a view of
`src` restricted to the rows matching `where`; `DeleteFeatures(layer)` then
deletes exactly those rows from `src` itself.  No copy is made: the input
dataset is filtered in place. -/

/-- The row-level effect of `MakeFeatureLayer` + `DeleteFeatures` with
selection predicate `pred`: the rows matching `pred` are deleted. -/
def filterRows (pred : Feature → Bool) (fc : FeatureClass) : FeatureClass :=
  fc.filter (fun f => pred f = false)

/-- `MakeFeatureLayer(name, layer, where)` followed by
`DeleteFeatures(layer)`, at workspace level: the dataset `name` itself
loses the matching rows (the layer is transient and is not a dataset). -/
def attributeFilterStep (ws : Workspace) (name : String) (pred : Feature → Bool) : Workspace :=
  match ws name with
  | some fc => wsSet ws name (filterRows pred fc)
  | none => ws

/-- The `where` clause `tnmfrc IN (7, 8)` of script line 110 (ferry
routes and tunnels in the USGS road class). -/
def roadDelPred (f : Feature) : Bool :=
  f.tnmfrc == some 7 || f.tnmfrc == some 8

/-- Character-list equality test for a pattern at the head of a string. -/
def matchHere : List Char → List Char → Bool
  | [], _ => true
  | _ :: _, [] => false
  | p :: ps, c :: cs => p == c && matchHere ps cs

/-- Substring test: `hasSub pat s` holds when `pat` occurs contiguously in
`s` (the file-geodatabase `LIKE` with `%` wildcards on both sides). -/
def hasSub (pat : List Char) : List Char → Bool
  | [] => matchHere pat []
  | c :: cs => matchHere pat (c :: cs) || hasSub pat cs

/-- The `where` clause `trailtype LIKE` percent-Water-percent of script
line 113 (water trails in the USGS trail class). -/
def trailDelPred (f : Feature) : Bool :=
  hasSub "Water".data f.trailtype.data

/-! ### Fragment pruning (script lines 171-174) -/

/-- `CalculateGeometryAttributes(fc, "LineLength LENGTH_GEODESIC",
"METERS")`: populate `LineLength` with the geodesic length of each
feature's geometry; `len` is the (abstract) geodesic length measure. -/
def calcLineLength (len : Geom → Rat) (fc : FeatureClass) : FeatureClass :=
  fc.map (fun f => { f with lineLength := len f.geom })

/-- Script lines 173-174: select `LineLength < m` and delete the selected
rows — exactly `filterRows` with the shortness predicate. -/
def fragmentPrune (m : Rat) (fc : FeatureClass) : FeatureClass :=
  filterRows (fun f => decide (f.lineLength < m)) fc

/-! ### Geometry repair (script lines 139-140)

Modelled from the spec: `arcpy.management.RepairGeometry(fc, "DELETE_NULL",
"ESRI")` is an arcpy builtin, not repository source; per §4.6 it removes
features with null geometry and canonicalizes topologically invalid
geometry by a deterministic rule — here, collapsing self-overlapping
(duplicated) atoms. -/
def repairGeometry (fc : FeatureClass) : FeatureClass :=
  (fc.filter (fun f => f.geom ≠ 0)).map (fun f => { f with geom := f.geom.dedup })

/-! ### Merge and dissolve (script lines 267-273) -/

/-- `CalculateField(fc, "Source", s)`: tag every row with the source
label (script lines 267-270). -/
def tagSource (s : String) (fc : FeatureClass) : FeatureClass :=
  fc.map (fun f => { f with source := s })

/-- The merge-field key used by the final dissolve: `"Source;Width"`. -/
def swKey (f : Feature) : String × Option Rat := (f.source, f.width)

/-- `arcpy.analysis.PairwiseDissolve(fc, out, "Source;Width", MULTI_PART)`:
one output feature per distinct (Source, Width) value pair, whose
multi-part geometry is the union of the geometries of the rows carrying
that pair; all other attributes are dropped. -/
def dissolveSourceWidth (fc : FeatureClass) : FeatureClass :=
  ((fc.map swKey).dedup).map (fun k =>
    { geom := (((fc.filter (fun f => swKey f = k)).map Feature.geom).sum : Geom),
      source := k.1, width := k.2 })

/-- Script lines 267-273: tag the four width-attributed classes with their
source labels, `Merge` them into one class, and dissolve on
`"Source;Width"`. -/
def hierarchicalMerger (usfsRoads usgsRoads trails rails : FeatureClass) : FeatureClass :=
  dissolveSourceWidth
    (tagSource "USFS_Road" usfsRoads ++ tagSource "USGS_Road" usgsRoads ++
     tagSource "USGS_Trail" trails ++ tagSource "USGS_Rail" rails)

/-! ### Concrete instances used by witnesses -/

/-- Abstract geodesic length measure used by the fragment-pruning witness:
each atom contributes one meter. -/
def c3len (g : Geom) : Rat := (Multiset.card g : Rat)

/-- Input class for the fragment-pruning witness: one three-atom feature
and one one-atom sliver. -/
def c3fc : FeatureClass := [{ geom := (↑[1, 2, 3] : Geom) }, { geom := (↑[9] : Geom) }]

/-- The surviving feature of the fragment-pruning witness, with its
computed `LineLength`. -/
def c3feat : Feature := { geom := (↑[1, 2, 3] : Geom), lineLength := 3 }

/-- A valid class (no null geometry, no self-overlap) for the repair
witness. -/
def c5fc : FeatureClass := [{ geom := (↑[1, 2] : Geom) }, { geom := (↑[3] : Geom) }]

/-- A class holding one ferry-route road (tnmfrc 7) and one ordinary road
(tnmfrc 2), for the Scenario B witness. -/
def c9fc : FeatureClass := [{ tnmfrc := some 7 }, { tnmfrc := some 2 }]

/-- The tnmfrc-2 road of the Scenario B witness. -/
def c9f2 : Feature := { tnmfrc := some 2 }

/-! ### Claims -/

/-- C2, counterexample: the claim says a null classification value never
produces a null Width, but the USGS-road code block maps a null `tnmfrc`
to a null `Width` (`elif tnmfrc is None: return None`, script lines
216-217). -/
theorem reclassTnmfrc_null_gives_null : reclassTnmfrc none = none := rfl

/-- C2, amended: every non-null `tnmfrc` yields a non-negative width and
only null `tnmfrc` yields a null width; the lane-width, trail and rail
classifiers are total with non-negative widths, including on null input. -/
theorem widthClassifier_amended :
    (∀ t w, reclassTnmfrc t = some w → 0 ≤ w) ∧
    (∀ t, reclassTnmfrc t = none ↔ t = none) ∧
    (∀ lw, 0 ≤ reclassLaneWidth lw) ∧
    (∀ o, 0 ≤ reclassOhv o) ∧
    0 ≤ railWidth := by
  refine ⟨?_, ?_, ?_, ?_, by norm_num [railWidth]⟩
  · intro t w h
    unfold reclassTnmfrc at h
    split at h <;> (try cases h) <;> norm_num
  · intro t
    unfold reclassTnmfrc
    split <;> simp_all
  · intro lw
    unfold reclassLaneWidth
    split <;> norm_num
  · intro o
    unfold reclassOhv
    split <;> norm_num

/-- C2, witness for the amended claim at concrete inputs. -/
theorem widthClassifier_amended_witness :
    reclassTnmfrc (some 2) = some 20 ∧ (0 : Rat) ≤ 20 ∧ (0 : Rat) ≤ reclassLaneWidth none :=
  ⟨by decide, widthClassifier_amended.1 (some 2) 20 (by decide),
    widthClassifier_amended.2.2.1 none⟩

/-- C6: the `rcls` code block has `else: return None` inside its loop, so
only the first character of `str(lanes)` is examined.  A lane string whose
first character is not a digit but which contains one (here `"A2"`) gets
`None` (hence default width 5), while the spec-intended first-digit scan
gets `"2"` (width 8).  Null lane counts do map to the default, and a
leading digit is returned, as claimed. -/
theorem rcls_first_char_only :
    rcls (some "A2") = none ∧
    firstDigitOfLanes (some "A2") = some "2" ∧
    reclassLaneWidth (rcls (some "A2")) = 5 ∧
    reclassLaneWidth (firstDigitOfLanes (some "A2")) = 8 ∧
    rcls none = none ∧ reclassLaneWidth (rcls none) = 5 ∧
    rcls (some "2") = some "2" := by
  refine ⟨by decide, by decide, by decide, by decide, by decide, by decide, by decide⟩

/-- C10: the output name is formed from the incident name of the first
perimeter row only (rows after the first are ignored), with every space
removed, concatenated as `"transprtn_cntmnt_" ++ name ++ "_" ++ timestamp`. -/
theorem outputName_from_first_row (r : String) (rest : List String) (ts : String) :
    finalOutputName (r :: rest) ts =
      some ("transprtn_cntmnt_" ++ String.mk (r.data.filter (fun c => c ≠ ' ')) ++ "_" ++ ts) ∧
    finalOutputName (r :: rest) ts = finalOutputName [r] ts :=
  ⟨rfl, rfl⟩

/-- C3: every feature surviving the small-segment deletion of script lines
171-174 has geodesic length at least the caller-supplied minimum `m`, and
its `LineLength` field is the geodesic length just computed for its
geometry. -/
theorem fragmentPrune_floor (len : Geom → Rat) (m : Rat) (fc : FeatureClass) :
    ∀ f ∈ fragmentPrune m (calcLineLength len fc),
      m ≤ f.lineLength ∧ f.lineLength = len f.geom := by
  intro f hf
  unfold fragmentPrune filterRows at hf
  rw [List.mem_filter] at hf
  obtain ⟨hmem, hkeep⟩ := hf
  have hlen : ¬ (f.lineLength < m) := by
    intro hlt
    simp [hlt] at hkeep
  refine ⟨le_of_not_lt hlen, ?_⟩
  unfold calcLineLength at hmem
  rw [List.mem_map] at hmem
  obtain ⟨g, _, rfl⟩ := hmem
  rfl

/-- C3, witness: with a per-atom length measure, the three-atom feature
survives a 2-meter floor and carries its computed length. -/
theorem fragmentPrune_floor_witness :
    (2 : Rat) ≤ c3feat.lineLength ∧ c3feat.lineLength = c3len c3feat.geom :=
  fragmentPrune_floor c3len 2 c3fc c3feat (by decide)

/-- C5: `RepairGeometry` (modelled per §4.6: drop null geometries,
canonicalize self-overlaps) applied twice equals applied once, and on an
already-valid class (no null geometry, no self-overlap) it changes
nothing. -/
theorem repairGeometry_idem (fc : FeatureClass) :
    repairGeometry (repairGeometry fc) = repairGeometry fc ∧
    ((∀ f ∈ fc, f.geom ≠ 0 ∧ f.geom.Nodup) → repairGeometry fc = fc) := by
  constructor
  · unfold repairGeometry
    rw [List.filter_eq_self.mpr, List.map_map]
    · apply List.map_congr_left
      intro f _
      show Feature.mk _ _ _ _ _ _ _ _ _ = Feature.mk _ _ _ _ _ _ _ _ _
      simp [Multiset.dedup_idem]
    · intro f hf
      rw [List.mem_map] at hf
      obtain ⟨g, hg, rfl⟩ := hf
      rw [List.mem_filter] at hg
      simpa [Multiset.dedup_eq_zero] using hg.2
  · intro hvalid
    unfold repairGeometry
    rw [List.filter_eq_self.mpr]
    · have : ∀ f ∈ fc, (fun f : Feature => { f with geom := f.geom.dedup }) f = f := by
        intro f hf
        have hnd := (hvalid f hf).2
        show Feature.mk _ _ _ _ _ _ _ _ _ = f
        rw [Multiset.dedup_eq_self.mpr hnd]
      rw [List.map_congr_left this]
      simp
    · intro f hf
      simpa using (hvalid f hf).1

/-- C5, witness: repairing the concrete valid class `c5fc` is a no-op. -/
theorem repairGeometry_idem_witness : repairGeometry c5fc = c5fc :=
  (repairGeometry_idem c5fc).2 (by decide)

/-- C9, Scenario B: after the attribute filter of script line 110 no road
with `tnmfrc` 7 or 8 remains; a road with `tnmfrc` 2 survives the filter
and the width code block gives it Width 20; after the filter of script
line 113 no trail whose `trailtype` contains "Water" remains. -/
theorem scenarioB (fc : FeatureClass) :
    (∀ f ∈ filterRows roadDelPred fc, f.tnmfrc ≠ some 7 ∧ f.tnmfrc ≠ some 8) ∧
    (∀ f ∈ fc, f.tnmfrc = some 2 →
      f ∈ filterRows roadDelPred fc ∧ reclassTnmfrc f.tnmfrc = some 20) ∧
    (∀ f ∈ filterRows trailDelPred fc, hasSub "Water".data f.trailtype.data = false) := by
  refine ⟨?_, ?_, ?_⟩
  · intro f hf
    unfold filterRows at hf
    rw [List.mem_filter] at hf
    have h := hf.2
    simp only [roadDelPred, Bool.or_eq_false_iff, beq_eq_false_iff_ne, decide_eq_true_eq] at h
    simpa using h
  · intro f hf h2
    refine ⟨?_, by rw [h2]; rfl⟩
    unfold filterRows
    rw [List.mem_filter]
    refine ⟨hf, ?_⟩
    simp [roadDelPred, h2]
  · intro f hf
    unfold filterRows at hf
    rw [List.mem_filter] at hf
    have h := hf.2
    simpa [trailDelPred] using h

/-- C9, witness: in the concrete class `c9fc` the tnmfrc-2 road survives
filtering and gets Width 20. -/
theorem scenarioB_witness :
    c9f2 ∈ filterRows roadDelPred c9fc ∧ reclassTnmfrc c9f2.tnmfrc = some 20 :=
  (scenarioB c9fc).2.1 c9f2 (by decide) (by decide)

/-- High-priority class for the dedup witness: one road covering atoms 1
and 2. -/
def c1H : FeatureClass := [{ geom := (↑[1, 2] : Geom) }]

/-- Low-priority class for the dedup witness: one trail covering atoms 2
and 3 (atom 2 coincides with the road). -/
def c1L : FeatureClass := [{ geom := (↑[2, 3] : Geom) }]

/-- The deduplicated trail of the witness: only atom 3 remains. -/
def c1out : Feature := { geom := (↑[3] : Geom) }

/-- Workspace for the dedup witness, holding the two clipped classes under
their script names. -/
def c1ws : Workspace := fun m =>
  if m = "AOIClp_RoadSegment" then some c1H
  else if m = "AOIClp_TrailSegment" then some c1L else none

/-- C1: after the intersect-then-erase sequence, no feature of the
deduplicated low-priority output shares any atom with any feature of the
high-priority class, and the high-priority dataset is left unmodified
(the sequence only writes the two new datasets `iname` and `oname`). -/
theorem priorityDedup_no_overlap :
    (∀ (H L : FeatureClass), ∀ g ∈ priorityDedup H L, ∀ f ∈ H, ∀ x ∈ g.geom, x ∉ f.geom) ∧
    (∀ (ws : Workspace) (hn ln inm onm : String), hn ≠ inm → hn ≠ onm →
      priorityDedupStep ws hn ln inm onm hn = ws hn) := by
  constructor
  · intro H L g hg f hf x hx hxf
    unfold priorityDedup pairwiseErase at hg
    rw [List.mem_map] at hg
    obtain ⟨t, ht, rfl⟩ := hg
    rw [Multiset.mem_filter] at hx
    obtain ⟨hxt, hnc⟩ := hx
    have hcov : coveredBy (pairwiseIntersect H L) x = true := by
      unfold coveredBy
      rw [List.any_eq_true]
      refine ⟨{ geom := geomInter f.geom t.geom }, ?_, ?_⟩
      · unfold pairwiseIntersect
        rw [List.mem_flatMap]
        exact ⟨f, hf, List.mem_map.mpr ⟨t, ht, rfl⟩⟩
      · simp only [decide_eq_true_eq]
        unfold geomInter
        rw [Multiset.mem_filter]
        exact ⟨hxf, by simpa using hxt⟩
    rw [hcov] at hnc
    cases hnc
  · intro ws hn ln inm onm h1 h2
    unfold priorityDedupStep
    cases hH : ws hn <;> cases hL : ws ln <;>
      simp [wsSet, h1, h2, hH]

/-- C1, witness: the trail remnant (atom 3) shares no atom with the road,
and the road dataset is untouched by the step, at the script's own dataset
names. -/
theorem priorityDedup_no_overlap_witness :
    (3 : Nat) ∉ ({ geom := (↑[1, 2] : Geom) } : Feature).geom ∧
    priorityDedupStep c1ws "AOIClp_RoadSegment" "AOIClp_TrailSegment"
        "USGS_Trails_Roads_Intersect" "AOI_Clp_Trails_RoadsErased"
        "AOIClp_RoadSegment" = c1ws "AOIClp_RoadSegment" :=
  ⟨priorityDedup_no_overlap.1 c1H c1L c1out (by decide)
      { geom := (↑[1, 2] : Geom) } (by decide) 3 (by decide),
    priorityDedup_no_overlap.2 c1ws _ _ _ _ (by decide) (by decide)⟩

/-- Workspace for the attribute-filter counterexample: the USGS road
input holds a single ferry-route feature (tnmfrc 7). -/
def c7ws : Workspace := fun m =>
  if m = "usgs_roads" then some [{ tnmfrc := some 7 }] else none

/-- C7, counterexample: `MakeFeatureLayer` + `DeleteFeatures` delete the
matching rows from the input dataset itself — no copy is made — so the
original input collection is modified whenever a row matches, contrary to
the claim. -/
theorem attributeFilter_mutates_input :
    attributeFilterStep c7ws "usgs_roads" roadDelPred "usgs_roads" ≠
      c7ws "usgs_roads" := by decide

/-- C7, amended: the filter is side-effect-free with respect to every
other dataset, but it operates on the input dataset in place, replacing it
with its non-matching rows. -/
theorem attributeFilter_frame :
    ∀ (ws : Workspace) (name : String) (pred : Feature → Bool),
      (∀ m, m ≠ name → attributeFilterStep ws name pred m = ws m) ∧
      (∀ fc, ws name = some fc →
        attributeFilterStep ws name pred name = some (filterRows pred fc)) := by
  intro ws name pred
  constructor
  · intro m hm
    unfold attributeFilterStep
    cases hfc : ws name <;> simp [wsSet, hm, hfc]
  · intro fc hfc
    unfold attributeFilterStep
    rw [hfc]
    simp [wsSet]

/-- C7, witness for the amended claim: a different dataset name is
untouched, and the input dataset becomes its filtered rows. -/
theorem attributeFilter_frame_witness :
    attributeFilterStep c7ws "usgs_roads" roadDelPred "usgs_trails" = c7ws "usgs_trails" ∧
    attributeFilterStep c7ws "usgs_roads" roadDelPred "usgs_roads" =
      some (filterRows roadDelPred [{ tnmfrc := some 7 }]) :=
  ⟨(attributeFilter_frame c7ws "usgs_roads" roadDelPred).1 "usgs_trails" (by decide),
    (attributeFilter_frame c7ws "usgs_roads" roadDelPred).2 [{ tnmfrc := some 7 }] rfl⟩

/-- Input class for the merge-key witness: one USFS road feature. -/
def c4a : FeatureClass := [{ geom := (↑[1] : Geom), width := some 5 }]

/-- The single dissolved output feature of the merge-key witness. -/
def c4feat : Feature := { geom := (↑[1] : Geom), width := some 5, source := "USFS_Road" }

/-- C4: in the final merged-and-dissolved output, two features sharing
both `Source` and `Width` are the same feature — the output is uniquely
keyed by the (Source, Width) pair. -/
theorem mergeKey_unique (a b c d : FeatureClass) :
    ∀ f ∈ hierarchicalMerger a b c d, ∀ g ∈ hierarchicalMerger a b c d,
      f.source = g.source → f.width = g.width → f = g := by
  intro f hf g hg hs hw
  unfold hierarchicalMerger dissolveSourceWidth at hf hg
  rw [List.mem_map] at hf hg
  obtain ⟨k1, _, rfl⟩ := hf
  obtain ⟨k2, _, rfl⟩ := hg
  have hk : k1 = k2 := Prod.ext hs hw
  rw [hk]

/-- C4, witness: the theorem applied to the one dissolved feature of a
concrete run. -/
theorem mergeKey_unique_witness : c4feat = c4feat :=
  mergeKey_unique c4a [] [] [] c4feat (by decide) c4feat (by decide) rfl rfl

/-! ### Phase boundaries and cleanup (script lines 87-192 and 196-294)

The script wraps each of its two processing phases in one `try/except`.
For the failure analysis only dataset existence matters, so each arcpy
call is abstracted to the dataset names it creates (with
`overwriteOutput`) or deletes; a failing call has no effect, and the
`except` block deletes a hand-enumerated name list, reports, and exits. -/

/-- One pipeline stage, abstracted to the scratch dataset names it creates
and deletes. -/
structure Step where
  creates : List String := []
  deletes : List String := []

/-- Effect of one completed stage on dataset existence. -/
def applyStep (ws : Workspace) (s : Step) : Workspace :=
  fun m => if m ∈ s.creates then some [] else if m ∈ s.deletes then none else ws m

/-- Run a list of stages in order. -/
def runSteps (ws : Workspace) : List Step → Workspace
  | [] => ws
  | s :: rest => runSteps (applyStep ws s) rest

/-- The `except`-block cleanup loop: `for fc in fc_Delete: if
arcpy.Exists(fc): arcpy.Delete_management(fc)` — afterwards none of the
listed names exists. -/
def cleanupNames (l : List String) (ws : Workspace) : Workspace :=
  fun m => if m ∈ l then none else ws m

/-- Whether the run finished normally or aborted through the `except`
block (error report plus `sys.exit()`). -/
inductive Outcome
  | ok
  | err
deriving DecidableEq

/-- Run one phase.  `failAt = some k` means stage `k` raises: the stages
before it have completed, stage `k` has no effect, control jumps to the
phase's `except` block, which runs the cleanup loop and aborts. -/
def runPhase (ws : Workspace) (steps : List Step) (cl : List String) :
    Option Nat → Workspace × Outcome
  | none => (runSteps ws steps, Outcome.ok)
  | some k => (cleanupNames cl (runSteps ws (steps.take k)), Outcome.err)

/-- The preprocessing phase, script lines 87-181: each geometry/table
operation with the scratch datasets it creates or deletes. -/
def phase1Steps : List Step :=
  [{ creates := ["Perims_10kmBuff"] },
   {}, {},
   { creates := ["AOIClp_RailFeature"] },
   { creates := ["AOIClp_TrailSegment"] },
   { creates := ["AOIClp_RoadSegment"] },
   { creates := ["AOI_Clp_RoadCore_FS"] },
   { creates := ["USGS_Trails_Roads_Intersect"] },
   { creates := ["AOI_Clp_Trails_RoadsErased"] },
   { creates := ["USGS_TrailsRoads_Mrg"] },
   { creates := ["USGS_USFS_TransInt"] },
   { creates := ["USFS_Roads_USGS_Erased"] },
   {}, {},
   { creates := ["USGS_AllMrg"] },
   { creates := ["USGS_AllMrg_Buffer"] },
   { deletes := ["Perims_10kmBuff", "USGS_Trails_Roads_Intersect",
                 "USGS_TrailsRoads_Mrg", "AOIClp_TrailSegment", "USGS_USFS_TransInt"] },
   { creates := ["USFS_Roads_USGS_EraseBuff"] },
   {}, {}, {}, {},
   { deletes := ["Perims_10kmBuff", "USGS_Trails_Roads_Intersect",
                 "USGS_TrailsRoads_Mrg", "USGS_AllMrg", "USGS_AllMrg_Buffer",
                 "AOI_Clp_RoadCore_FS", "AOIClp_TrailSegment", "USGS_USFS_TransInt",
                 "USFS_Roads_USGS_Erased"] }]

/-- The `fc_Delete` list of the preprocessing `except` block,
script line 186. -/
def phase1Cleanup : List String :=
  ["Perims_10kmBuff", "USGS_Trails_Roads_Intersect", "USGS_TrailsRoads_Mrg",
   "USGS_AllMrg", "USGS_AllMrg_Buffer", "AOI_Clp_RoadCore_FS",
   "AOIClp_TrailSegment", "USGS_USFS_TransInt", "USFS_Roads_USGS_Erased",
   "AOI_Clp_Trails_RoadsErased", "AOIClp_RailFeature", "AOIClp_RoadSegment",
   "USFS_Roads_USGS_EraseBuff"]

/-- The published output dataset of script line 273; it lives in
`output.gdb`, not in the scratch workspace, hence the distinct path-like
name. -/
def publishedName : String := "output.gdb/transprtn_cntmnt"

/-- The width-attribution phase before its final publishing dissolve,
script lines 196-272. -/
def phase2Pre : List Step :=
  [{ creates := ["AOIClp_USGS_Road_TNMFRC_Diss"] },
   {}, {},
   { creates := ["USFS_Roads_Diss_ALL"] },
   {}, {},
   { creates := ["AOIClp_Rail_Diss"] },
   {}, {},
   { creates := ["AOI_Clp_Trails_Diss"] },
   {}, {}, {}, {},
   { creates := ["trans_usgs_usfs_containment"] }]

/-- The width-attribution phase: the publishing dissolve of script line
273 is its last geometry operation. -/
def phase2Steps : List Step := phase2Pre ++ [{ creates := [publishedName] }]

/-- The `fc_Delete` list of the width-attribution `except` block,
script line 288. -/
def phase2Cleanup : List String :=
  ["AOI_Clp_Trails_Diss", "AOI_Clp_Trails_RoadsErased", "AOIClp_Rail_Diss",
   "AOIClp_RailFeature", "AOIClp_RoadSegment", "AOIClp_USGS_Road_TNMFRC_Diss",
   "trans_usgs_usfs_containment", "USFS_Roads_Diss_ALL", "USFS_Roads_USGS_EraseBuff"]

/-- All scratch names a phase creates. -/
def stepsCreates (l : List Step) : List String := l.flatMap Step.creates

/-- A name no stage of `l` creates stays absent. -/
theorem runSteps_absent (n : String) :
    ∀ (l : List Step) (ws : Workspace), ws n = none →
      (∀ s ∈ l, n ∉ s.creates) → runSteps ws l n = none := by
  intro l
  induction l with
  | nil => intro ws h _; exact h
  | cons s rest ih =>
    intro ws h hall
    show runSteps (applyStep ws s) rest n = none
    apply ih
    · unfold applyStep
      have hnc : n ∉ s.creates := hall s (List.mem_cons_self s rest)
      simp only [hnc, if_false]
      split <;> simp [h]
    · intro s2 hs2
      exact hall s2 (List.mem_cons_of_mem s hs2)

/-- Empty workspace for the phase-boundary witness. -/
def c8ws : Workspace := fun _ => none

/-- C8: if any stage of a phase raises, the run takes that phase's single
`except` boundary: the outcome is an error, every scratch dataset the
phase can have created is deleted by the boundary's cleanup loop (whatever
the failing stage was), the published output never appears (the publishing
dissolve is the last geometry operation of phase two), and the cleanup
loop is idempotent. -/
theorem phaseBoundary_abort :
    (∀ (ws : Workspace) (k : Nat), k < phase1Steps.length →
      (runPhase ws phase1Steps phase1Cleanup (some k)).2 = Outcome.err ∧
      ∀ n ∈ stepsCreates phase1Steps,
        (runPhase ws phase1Steps phase1Cleanup (some k)).1 n = none) ∧
    (∀ (ws : Workspace) (k : Nat), k < phase2Steps.length → ws publishedName = none →
      (runPhase ws phase2Steps phase2Cleanup (some k)).2 = Outcome.err ∧
      (∀ n ∈ stepsCreates phase2Pre,
        (runPhase ws phase2Steps phase2Cleanup (some k)).1 n = none) ∧
      (runPhase ws phase2Steps phase2Cleanup (some k)).1 publishedName = none) ∧
    (∀ ws : Workspace,
      cleanupNames phase1Cleanup (cleanupNames phase1Cleanup ws) =
        cleanupNames phase1Cleanup ws ∧
      cleanupNames phase2Cleanup (cleanupNames phase2Cleanup ws) =
        cleanupNames phase2Cleanup ws) := by
  refine ⟨?_, ?_, ?_⟩
  · intro ws k _
    refine ⟨rfl, ?_⟩
    intro n hn
    have hsub : ∀ x ∈ stepsCreates phase1Steps, x ∈ phase1Cleanup := by decide
    have hcl : n ∈ phase1Cleanup := hsub n hn
    show cleanupNames phase1Cleanup (runSteps ws (phase1Steps.take k)) n = none
    unfold cleanupNames
    simp [hcl]
  · intro ws k hk hout
    refine ⟨rfl, ?_, ?_⟩
    · intro n hn
      have hsub : ∀ x ∈ stepsCreates phase2Pre, x ∈ phase2Cleanup := by decide
      have hcl : n ∈ phase2Cleanup := hsub n hn
      show cleanupNames phase2Cleanup (runSteps ws (phase2Steps.take k)) n = none
      unfold cleanupNames
      simp [hcl]
    · show cleanupNames phase2Cleanup (runSteps ws (phase2Steps.take k)) publishedName = none
      have hkpre : k ≤ phase2Pre.length := by
        have : phase2Steps.length = phase2Pre.length + 1 := by
          unfold phase2Steps
          simp
        omega
      have htake : phase2Steps.take k = phase2Pre.take k := by
        unfold phase2Steps
        exact List.take_append_of_le_length hkpre
      rw [htake]
      have habs : runSteps ws (phase2Pre.take k) publishedName = none := by
        apply runSteps_absent publishedName _ _ hout
        intro s hs
        have hs2 : s ∈ phase2Pre := List.take_subset k phase2Pre hs
        have hall : ∀ x ∈ phase2Pre, publishedName ∉ x.creates := by decide
        exact hall s hs2
      unfold cleanupNames
      rw [habs]
      split <;> rfl
  · intro ws
    constructor <;>
      · funext m
        unfold cleanupNames
        split <;> simp [*]

/-- C8, witness: with an empty workspace, a failure at stage 3 of phase
one aborts with cleanup of `Perims_10kmBuff`, and a failure at stage 2 of
phase two leaves the published output absent. -/
theorem phaseBoundary_abort_witness :
    (runPhase c8ws phase1Steps phase1Cleanup (some 3)).2 = Outcome.err ∧
    (runPhase c8ws phase1Steps phase1Cleanup (some 3)).1 "Perims_10kmBuff" = none ∧
    (runPhase c8ws phase2Steps phase2Cleanup (some 2)).1 publishedName = none :=
  ⟨(phaseBoundary_abort.1 c8ws 3 (by decide)).1,
   (phaseBoundary_abort.1 c8ws 3 (by decide)).2 "Perims_10kmBuff" (by decide),
   (phaseBoundary_abort.2.1 c8ws 2 (by decide) rfl).2.2⟩
